import Mathlib

/-!
Shallow embedding of the sketchtocad-workflow-orchestrator saga core:
the event model (`app/events/base.py`, `app/events/types.py`,
`app/events/events.py`), the saga store (`app/database/saga_repository.py`,
`app/database/saga_models.py`), the orchestrator state machine
(`app/orchestrator/orchestrator.py`) and the event-bus consumer policy
(`app/events/bus.py`).

Conventions of the embedding:
* timestamps are `Nat` milliseconds; every call of `datetime.utcnow()`
  becomes an explicit `now : Nat` parameter (one per operation);
* JSON documents (event payloads, `result_data`, step `input_data` /
  `output_data`) are association lists over an inductive `Value`;
* `uuid.uuid4()` (the `correlation_id` default factory of `SagaEvent`)
  becomes an explicit `fresh : String` parameter: a constructor that is not
  handed a correlation identifier uses `fresh`;
* each SQLAlchemy session/commit is a pure transformation of a `Store`
  value; `ORDER BY id DESC ... first()` is max-id selection;
* fallible repository operations return `Except String`; an orchestrator
  handler returns an `HResult` that carries the store as mutated by the
  repository calls that committed before the failure point (each call in
  the Python code commits individually).
-/

/-- JSON-like payload values (`Dict[str, Any]` documents in the Python code). -/
inductive Value where
  | null : Value
  | str : String → Value
  | int : Int → Value
  | dict : List (String × Value) → Value
  | list : List Value → Value

/-- `SagaStatus` from `app/events/types.py`. -/
inductive SagaStatus where
  | started
  | image_processing
  | awaiting_enhancement_selection
  | generating_enhanced_colors
  | awaiting_clustering
  | processing_clustering
  | awaiting_export
  | dxf_export
  | completed
  | failed
  | compensating
  | compensated
deriving DecidableEq

/-- `EventType` from `app/events/types.py`.  The `enhanced_colors_requested`
and `enhanced_colors_generated` members are modelled from the spec: the
orchestrator and `app/events/__init__.py` reference
`EventType.ENHANCED_COLORS_REQUESTED` / `ENHANCED_COLORS_GENERATED`, but the
`types.py` under `src/` does not declare them. -/
inductive EventType where
  | image_processing_requested
  | clustering_requested
  | dxf_export_requested
  | image_processed
  | clustering_completed
  | dxf_exported
  | workflow_started
  | workflow_completed
  | workflow_failed
  | enhancement_selected
  | clustering_submitted
  | export_requested
  | compensation_requested
  | compensation_completed
  | enhanced_colors_requested
  | enhanced_colors_generated
deriving DecidableEq

/-- The common envelope, `SagaEvent` from `app/events/base.py`. -/
structure SagaEvent where
  saga_id : String
  event_type : EventType
  correlation_id : String
  timestamp : Nat
  payload : List (String × Value)
  metadata : List (String × Value)
  retry_count : Nat
  error_message : Option String

/-- Envelope construction: `correlation_id` has a `uuid4` default factory,
modelled by the explicit `fresh` argument; an explicitly passed
correlation identifier (the `correlation_id=...` kwarg) wins over it. -/
def mkSagaEvent (fresh : String) (now : Nat) (saga_id : String)
    (event_type : EventType) (payload : List (String × Value))
    (corr : Option String) (error_message : Option String) : SagaEvent :=
  { saga_id := saga_id
    event_type := event_type
    correlation_id := corr.getD fresh
    timestamp := now
    payload := payload
    metadata := []
    retry_count := 0
    error_message := error_message }

/-- `ImageProcessingRequested` from `app/events/events.py`. -/
def ImageProcessingRequested (fresh : String) (now : Nat) (saga_id : String)
    (session_id : Value) (image_filename : Value) (corr : Option String) : SagaEvent :=
  mkSagaEvent fresh now saga_id EventType.image_processing_requested
    [("session_id", session_id), ("image_filename", image_filename)] corr none

/-- `ClusteringRequested` from `app/events/events.py`. -/
def ClusteringRequested (fresh : String) (now : Nat) (saga_id : String)
    (session_id : Value) (bed_data : Value) (enhanced_colors : Value)
    (clusters_data : Value) (corr : Option String) : SagaEvent :=
  mkSagaEvent fresh now saga_id EventType.clustering_requested
    [("session_id", session_id), ("bed_data", bed_data),
     ("enhanced_colors", enhanced_colors), ("clusters_data", clusters_data)] corr none

/-- `DXFExportRequested` from `app/events/events.py`.  The constructor has no
`bed_data` parameter; the `bed_data=` keyword the orchestrator passes lands in
`**kwargs` and is dropped by the pydantic model. -/
def DXFExportRequested (fresh : String) (now : Nat) (saga_id : String)
    (session_id : Value) (cluster_dict : Value) (export_type : Value)
    (corr : Option String) : SagaEvent :=
  mkSagaEvent fresh now saga_id EventType.dxf_export_requested
    [("session_id", session_id), ("cluster_dict", cluster_dict),
     ("export_type", export_type)] corr none

/-- Modelled from the spec: `EnhancedColorsRequested` is imported by
`app/events/__init__.py` and emitted by the orchestrator, but `events.py`
under `src/` does not define it; modelled like the sibling command
constructors, fixing its event type and packing the orchestrator-supplied
`session_id` and `bed_data` into the payload. -/
def EnhancedColorsRequested (fresh : String) (now : Nat) (saga_id : String)
    (session_id : Value) (bed_data : Value) (corr : Option String) : SagaEvent :=
  mkSagaEvent fresh now saga_id EventType.enhanced_colors_requested
    [("session_id", session_id), ("bed_data", bed_data)] corr none

/-- `EnhancementSelected` from `app/events/events.py`. -/
def EnhancementSelected (fresh : String) (now : Nat) (saga_id : String)
    (session_id : Value) (enhancement_method : Value) (enhanced_colors : Value)
    (corr : Option String) : SagaEvent :=
  mkSagaEvent fresh now saga_id EventType.enhancement_selected
    [("session_id", session_id), ("enhancement_method", enhancement_method),
     ("enhanced_colors", enhanced_colors)] corr none

/-- `ClusteringSubmitted` from `app/events/events.py`. -/
def ClusteringSubmitted (fresh : String) (now : Nat) (saga_id : String)
    (session_id : Value) (clusters_data : Value) (corr : Option String) : SagaEvent :=
  mkSagaEvent fresh now saga_id EventType.clustering_submitted
    [("session_id", session_id), ("clusters_data", clusters_data)] corr none

/-- `ExportRequested` from `app/events/events.py`. -/
def ExportRequested (fresh : String) (now : Nat) (saga_id : String)
    (session_id : Value) (export_type : Value) (corr : Option String) : SagaEvent :=
  mkSagaEvent fresh now saga_id EventType.export_requested
    [("session_id", session_id), ("export_type", export_type)] corr none

/-- `WorkflowStarted` from `app/events/events.py`. -/
def WorkflowStarted (fresh : String) (now : Nat) (saga_id : String)
    (session_id : Value) (image_filename : Value) (workflow_type : Value)
    (corr : Option String) : SagaEvent :=
  mkSagaEvent fresh now saga_id EventType.workflow_started
    [("session_id", session_id), ("workflow_type", workflow_type),
     ("image_filename", image_filename)] corr none

/-- Dictionary lookup, `payload["key"]` / `payload.get("key")`. -/
def lookupVal (doc : List (String × Value)) (key : String) : Option Value :=
  (doc.find? fun kv => kv.1 == key).map Prod.snd

/-- Dictionary assignment `doc["key"] = v` (update in place, append if new). -/
def dictSet (doc : List (String × Value)) (key : String) (v : Value) :
    List (String × Value) :=
  if doc.any fun kv => kv.1 == key then
    doc.map fun kv => if kv.1 == key then (key, v) else kv
  else doc ++ [(key, v)]

/-- `len(...)` on a payload value (dict or list). -/
def vlen : Value → Option Nat
  | Value.dict entries => some entries.length
  | Value.list elems => some elems.length
  | _ => none

/-- The `sagas` table row, `Saga` from `app/database/saga_models.py`. -/
structure Saga where
  id : String
  workflow_type : String
  status : SagaStatus
  current_step : Option String
  session_id : String
  created_at : Nat
  updated_at : Nat
  completed_at : Option Nat
  result_data : Option (List (String × Value))
  error_message : Option String
  total_duration_ms : Option Nat

/-- The `saga_step_logs` table row, `SagaStepLog` from
`app/database/saga_models.py`; `id` is the autoincrement primary key. -/
structure SagaStepLog where
  id : Nat
  saga_id : String
  step_number : Nat
  step_name : String
  status : String
  event_type : Option EventType
  correlation_id : Option String
  input_data : Option (List (String × Value))
  output_data : Option (List (String × Value))
  error_message : Option String
  started_at : Nat
  completed_at : Option Nat
  duration_ms : Option Nat

/-- The `saga_compensations` table row from `app/database/saga_models.py`. -/
structure SagaCompensation where
  id : Nat
  saga_id : String
  step_name : String
  compensation_action : String
  status : String
  error_message : Option String
  executed_at : Nat

/-- The persistent database state behind `SagaRepository`. -/
structure Store where
  sagas : List Saga
  step_logs : List SagaStepLog
  compensations : List SagaCompensation
  next_log_id : Nat

/-- `SagaRepository.get_saga`. -/
def get_saga (st : Store) (saga_id : String) : Option Saga :=
  st.sagas.find? fun s => s.id == saga_id

/-- Writing back a mutated row of the `sagas` table (the effect of
`self.db.commit()` after attribute assignments on a fetched row). -/
def set_saga (st : Store) (saga : Saga) : Store :=
  { st with sagas := st.sagas.map fun t => if t.id = saga.id then saga else t }

/-- `SagaRepository.create_saga`; the primary-key constraint makes insertion
of an existing identifier fail. -/
def create_saga (st : Store) (now : Nat) (saga_id : String)
    (workflow_type : String) (session_id : String) : Except String (Store × Saga) :=
  match get_saga st saga_id with
  | some _ => Except.error ("duplicate key: " ++ saga_id)
  | none =>
    let saga : Saga :=
      { id := saga_id
        workflow_type := workflow_type
        status := SagaStatus.started
        current_step := none
        session_id := session_id
        created_at := now
        updated_at := now
        completed_at := none
        result_data := none
        error_message := none
        total_duration_ms := none }
    Except.ok ({ st with sagas := st.sagas ++ [saga] }, saga)

/-- `SagaRepository.update_saga_status`.  Note the Python truthiness guards:
`if current_step:` and `if error_message:` skip the update for `None`
*and* for the empty string. -/
def update_saga_status (st : Store) (now : Nat) (saga_id : String)
    (status : SagaStatus) (current_step : Option String)
    (error_message : Option String) : Except String (Store × Saga) :=
  match get_saga st saga_id with
  | none => Except.error ("Saga not found: " ++ saga_id)
  | some saga =>
    let saga1 : Saga :=
      { saga with
        status := status
        updated_at := now
        current_step :=
          match current_step with
          | some cs => if cs = "" then saga.current_step else some cs
          | none => saga.current_step
        error_message :=
          match error_message with
          | some em => if em = "" then saga.error_message else some em
          | none => saga.error_message
        completed_at :=
          if status = SagaStatus.completed ∨ status = SagaStatus.failed ∨
              status = SagaStatus.compensated then some now
          else saga.completed_at
        total_duration_ms :=
          if status = SagaStatus.completed ∨ status = SagaStatus.failed ∨
              status = SagaStatus.compensated then some (now - saga.created_at)
          else saga.total_duration_ms }
    Except.ok (set_saga st saga1, saga1)

/-- `SagaRepository.set_saga_result` (whole-document replace). -/
def set_saga_result (st : Store) (saga_id : String)
    (result_data : List (String × Value)) : Except String (Store × Saga) :=
  match get_saga st saga_id with
  | none => Except.error ("Saga not found: " ++ saga_id)
  | some saga =>
    let saga1 := { saga with result_data := some result_data }
    Except.ok (set_saga st saga1, saga1)

/-- `SagaRepository.log_step_started` (plain append; never fails). -/
def log_step_started (st : Store) (now : Nat) (saga_id : String)
    (step_number : Nat) (step_name : String) (event_type : EventType)
    (correlation_id : String) (input_data : Option (List (String × Value))) :
    Store × SagaStepLog :=
  let row : SagaStepLog :=
    { id := st.next_log_id
      saga_id := saga_id
      step_number := step_number
      step_name := step_name
      status := "started"
      event_type := some event_type
      correlation_id := some correlation_id
      input_data := input_data
      output_data := none
      error_message := none
      started_at := now
      completed_at := none
      duration_ms := none }
  ({ st with step_logs := st.step_logs ++ [row], next_log_id := st.next_log_id + 1 },
   row)

/-- The row filter of the `log_step_completed` / `log_step_failed` query:
`saga_id == saga_id AND step_name == step_name AND status == 'started'`. -/
def startedMatch (saga_id step_name : String) (l : SagaStepLog) : Bool :=
  l.saga_id == saga_id && l.step_name == step_name && l.status == "started"

/-- The `ORDER BY id DESC ... first()` lookup shared by `log_step_completed`
and `log_step_failed`: the matching row with the largest primary key. -/
def find_started : List SagaStepLog → String → String → Option SagaStepLog
  | [], _, _ => none
  | l :: t, saga_id, step_name =>
    match find_started t saga_id step_name with
    | none => if startedMatch saga_id step_name l then some l else none
    | some m =>
      if startedMatch saga_id step_name l then
        if l.id < m.id then some m else some l
      else some m

/-- `SagaRepository.log_step_completed`. -/
def log_step_completed (st : Store) (now : Nat) (saga_id : String)
    (step_name : String) (output_data : Option (List (String × Value))) :
    Except String (Store × SagaStepLog) :=
  match find_started st.step_logs saga_id step_name with
  | none => Except.error ("No started step found: " ++ saga_id ++ "/" ++ step_name)
  | some step_log =>
    let updated := { step_log with
      status := "completed"
      output_data := output_data
      completed_at := some now
      duration_ms := some (now - step_log.started_at) }
    Except.ok
      ({ st with step_logs :=
          st.step_logs.map fun l => if l.id = step_log.id then updated else l },
       updated)

/-- `SagaRepository.log_step_failed`: same lookup; with no `started` row it
synthesizes a fresh `failed` row (with `step_number=0`) instead of failing. -/
def log_step_failed (st : Store) (now : Nat) (saga_id : String)
    (step_name : String) (error_message : String) : Store × SagaStepLog :=
  match find_started st.step_logs saga_id step_name with
  | none =>
    let row : SagaStepLog :=
      { id := st.next_log_id
        saga_id := saga_id
        step_number := 0
        step_name := step_name
        status := "failed"
        event_type := none
        correlation_id := none
        input_data := none
        output_data := none
        error_message := some error_message
        started_at := now
        completed_at := some now
        duration_ms := none }
    ({ st with step_logs := st.step_logs ++ [row], next_log_id := st.next_log_id + 1 },
     row)
  | some step_log =>
    let updated := { step_log with
      status := "failed"
      error_message := some error_message
      completed_at := some now
      duration_ms := some (now - step_log.started_at) }
    ({ st with step_logs :=
        st.step_logs.map fun l => if l.id = step_log.id then updated else l },
     updated)

/-- `SagaRepository.get_completed_steps`. -/
def get_completed_steps (st : Store) (saga_id : String) : List String :=
  ((st.step_logs.filter fun l => l.saga_id == saga_id && l.status == "completed").map
    fun l => l.step_name)

/-- Result of an orchestrator handler: the store after the repository calls
that committed before any failure point, the `(topic, event)` pairs published
so far, and (for `err`) the message of the exception that escaped. -/
inductive HResult where
  | ok : Store → List (String × SagaEvent) → HResult
  | err : Store → String → List (String × SagaEvent) → HResult

/-- The store carried by a handler result. -/
def HResult.store : HResult → Store
  | HResult.ok st _ => st
  | HResult.err st _ _ => st

/-- The events published by a handler invocation, in publication order. -/
def HResult.published : HResult → List (String × SagaEvent)
  | HResult.ok _ p => p
  | HResult.err _ _ p => p

/-- The exception (if any) that escaped the handler. -/
def HResult.errored : HResult → Option String
  | HResult.ok _ _ => none
  | HResult.err _ m _ => some m

/-- `Orchestrator._handle_workflow_started`. -/
def handle_workflow_started (st : Store) (now : Nat) (fresh : String) (e : SagaEvent) : HResult :=
  match lookupVal e.payload "session_id" with
  | none => HResult.err st "KeyError: session_id" []
  | some session_id =>
    match update_saga_status st now e.saga_id SagaStatus.image_processing
        (some "image_processing") none with
    | Except.error m => HResult.err st m []
    | Except.ok (st1, _) =>
      let st2 := (log_step_started st1 now e.saga_id 1 "image_processing"
        EventType.image_processing_requested e.correlation_id
        (some [("session_id", session_id)])).1
      let cmd := ImageProcessingRequested fresh now e.saga_id session_id
        ((lookupVal e.payload "image_filename").getD (Value.str "unknown.jpg"))
        (some e.correlation_id)
      HResult.ok st2 [("saga-commands", cmd)]

/-- `Orchestrator._handle_image_processed`. -/
def handle_image_processed (st : Store) (now : Nat) (fresh : String) (e : SagaEvent) : HResult :=
  match lookupVal e.payload "session_id" with
  | none => HResult.err st "KeyError: session_id" []
  | some session_id =>
  match lookupVal e.payload "bed_data" with
  | none => HResult.err st "KeyError: bed_data" []
  | some bed_data =>
  match lookupVal e.payload "bed_count" with
  | none => HResult.err st "KeyError: bed_count" []
  | some bed_count =>
    let processing_time_ms := (lookupVal e.payload "processing_time_ms").getD (Value.int 0)
    let statistics := (lookupVal e.payload "statistics").getD (Value.dict [])
    let image_shape := (lookupVal e.payload "image_shape").getD (Value.list [])
    match log_step_completed st now e.saga_id "image_processing"
        (some [("bed_count", bed_count), ("processing_time_ms", processing_time_ms)]) with
    | Except.error m => HResult.err st m []
    | Except.ok (st1, _) =>
      match update_saga_status st1 now e.saga_id SagaStatus.generating_enhanced_colors
          (some "enhanced_colors") none with
      | Except.error m => HResult.err st1 m []
      | Except.ok (st2, _) =>
        let st3 := (log_step_started st2 now e.saga_id 2 "enhanced_colors"
          EventType.enhanced_colors_requested e.correlation_id
          (some [("bed_count", bed_count)])).1
        match set_saga_result st3 e.saga_id
            [("session_id", session_id), ("bed_count", bed_count),
             ("bed_data", bed_data), ("statistics", statistics),
             ("image_shape", image_shape),
             ("processing_time_ms", processing_time_ms)] with
        | Except.error m => HResult.err st3 m []
        | Except.ok (st4, _) =>
          let cmd := EnhancedColorsRequested fresh now e.saga_id session_id
            bed_data (some e.correlation_id)
          HResult.ok st4 [("saga-commands", cmd)]

/-- `Orchestrator._handle_enhanced_colors_generated` (publishes nothing:
the saga is parked awaiting the human enhancement selection). -/
def handle_enhanced_colors_generated (st : Store) (now : Nat) (_fresh : String) (e : SagaEvent) : HResult :=
  match lookupVal e.payload "enhanced_colors" with
  | none => HResult.err st "KeyError: enhanced_colors" []
  | some enhanced_colors =>
  match lookupVal e.payload "enhancement_methods" with
  | none => HResult.err st "KeyError: enhancement_methods" []
  | some enhancement_methods =>
    match log_step_completed st now e.saga_id "enhanced_colors"
        (some [("enhancement_methods", enhancement_methods)]) with
    | Except.error m => HResult.err st m []
    | Except.ok (st1, _) =>
      match update_saga_status st1 now e.saga_id
          SagaStatus.awaiting_enhancement_selection (some "enhancement_selection") none with
      | Except.error m => HResult.err st1 m []
      | Except.ok (st2, _) =>
        match get_saga st2 e.saga_id with
        | none => HResult.err st2 "AttributeError: NoneType" []
        | some saga =>
          let rd0 := saga.result_data.getD []
          let rd1 := dictSet rd0 "enhanced_colors" enhanced_colors
          let rd2 := dictSet rd1 "enhancement_methods" enhancement_methods
          let rd3 := dictSet rd2 "awaiting" (Value.str "enhancement_selection")
          match set_saga_result st2 e.saga_id rd3 with
          | Except.error m => HResult.err st2 m []
          | Except.ok (st3, _) => HResult.ok st3 []

/-- `Orchestrator._handle_enhancement_selected` (publishes nothing: the saga
is parked awaiting the human clustering submission). -/
def handle_enhancement_selected (st : Store) (now : Nat) (_fresh : String) (e : SagaEvent) : HResult :=
  match lookupVal e.payload "enhancement_method" with
  | none => HResult.err st "KeyError: enhancement_method" []
  | some enhancement_method =>
    let st1 := (log_step_started st now e.saga_id 3 "enhancement_selection"
      EventType.enhancement_selected e.correlation_id
      (some [("enhancement_method", enhancement_method)])).1
    match log_step_completed st1 now e.saga_id "enhancement_selection"
        (some [("enhancement_method", enhancement_method)]) with
    | Except.error m => HResult.err st1 m []
    | Except.ok (st2, _) =>
      match update_saga_status st2 now e.saga_id SagaStatus.awaiting_clustering
          (some "clustering") none with
      | Except.error m => HResult.err st2 m []
      | Except.ok (st3, _) =>
        match get_saga st3 e.saga_id with
        | none => HResult.err st3 "AttributeError: NoneType" []
        | some saga =>
          let rd0 := saga.result_data.getD []
          let rd1 := dictSet rd0 "enhancement_method" enhancement_method
          let rd2 := dictSet rd1 "awaiting" (Value.str "clustering")
          match set_saga_result st3 e.saga_id rd2 with
          | Except.error m => HResult.err st3 m []
          | Except.ok (st4, _) => HResult.ok st4 []

/-- `Orchestrator._handle_clustering_submitted`. -/
def handle_clustering_submitted (st : Store) (now : Nat) (fresh : String) (e : SagaEvent) : HResult :=
  match lookupVal e.payload "session_id" with
  | none => HResult.err st "KeyError: session_id" []
  | some session_id =>
  match lookupVal e.payload "clusters_data" with
  | none => HResult.err st "KeyError: clusters_data" []
  | some clusters_data =>
    match get_saga st e.saga_id with
    | none => HResult.err st "AttributeError: NoneType" []
    | some saga =>
      let result_data := saga.result_data.getD []
      match update_saga_status st now e.saga_id SagaStatus.processing_clustering
          (some "clustering") none with
      | Except.error m => HResult.err st m []
      | Except.ok (st1, _) =>
        match vlen clusters_data with
        | none => HResult.err st1 "TypeError: len" []
        | some cluster_count =>
          let st2 := (log_step_started st1 now e.saga_id 4 "clustering"
            EventType.clustering_requested e.correlation_id
            (some [("cluster_count", Value.int (Int.ofNat cluster_count))])).1
          let cmd := ClusteringRequested fresh now e.saga_id session_id
            ((lookupVal result_data "bed_data").getD (Value.list []))
            ((lookupVal result_data "enhanced_colors").getD (Value.dict []))
            clusters_data (some e.correlation_id)
          HResult.ok st2 [("saga-commands", cmd)]

/-- `Orchestrator._handle_clustering_completed` (auto-triggers DXF export). -/
def handle_clustering_completed (st : Store) (now : Nat) (fresh : String) (e : SagaEvent) : HResult :=
  match lookupVal e.payload "session_id" with
  | none => HResult.err st "KeyError: session_id" []
  | some session_id =>
  match lookupVal e.payload "processed_clusters" with
  | none => HResult.err st "KeyError: processed_clusters" []
  | some processed_clusters =>
  match lookupVal e.payload "cluster_count" with
  | none => HResult.err st "KeyError: cluster_count" []
  | some cluster_count =>
    let clustering_statistics := (lookupVal e.payload "statistics").getD (Value.dict [])
    match log_step_completed st now e.saga_id "clustering"
        (some [("cluster_count", cluster_count),
               ("processed_clusters", processed_clusters)]) with
    | Except.error m => HResult.err st m []
    | Except.ok (st1, _) =>
      match update_saga_status st1 now e.saga_id SagaStatus.dxf_export
          (some "dxf_export") none with
      | Except.error m => HResult.err st1 m []
      | Except.ok (st2, _) =>
        match get_saga st2 e.saga_id with
        | none => HResult.err st2 "AttributeError: NoneType" []
        | some saga =>
          let rd0 := saga.result_data.getD []
          let rd1 := dictSet rd0 "processed_clusters" processed_clusters
          let rd2 := dictSet rd1 "clustering_statistics" clustering_statistics
          match set_saga_result st2 e.saga_id rd2 with
          | Except.error m => HResult.err st2 m []
          | Except.ok (st3, _) =>
            let st4 := (log_step_started st3 now e.saga_id 5 "dxf_export"
              EventType.dxf_export_requested e.correlation_id
              (some [("export_type", Value.str "detailed")])).1
            let cmd := DXFExportRequested fresh now e.saga_id session_id
              processed_clusters (Value.str "detailed") (some e.correlation_id)
            HResult.ok st4 [("saga-commands", cmd)]

/-- `Orchestrator._handle_export_requested`. -/
def handle_export_requested (st : Store) (now : Nat) (fresh : String) (e : SagaEvent) : HResult :=
  match lookupVal e.payload "session_id" with
  | none => HResult.err st "KeyError: session_id" []
  | some session_id =>
    let export_type := (lookupVal e.payload "export_type").getD (Value.str "detailed")
    match get_saga st e.saga_id with
    | none => HResult.err st "AttributeError: NoneType" []
    | some saga =>
      let result_data := saga.result_data.getD []
      match update_saga_status st now e.saga_id SagaStatus.dxf_export
          (some "dxf_export") none with
      | Except.error m => HResult.err st m []
      | Except.ok (st1, _) =>
        let st2 := (log_step_started st1 now e.saga_id 5 "dxf_export"
          EventType.dxf_export_requested e.correlation_id
          (some [("export_type", export_type)])).1
        let cmd := DXFExportRequested fresh now e.saga_id session_id
          ((lookupVal result_data "processed_clusters").getD (Value.dict []))
          export_type (some e.correlation_id)
        HResult.ok st2 [("saga-commands", cmd)]

/-- `Orchestrator._handle_dxf_exported` (finalizes the saga; the Minio
session cleanup is an external-boundary effect and is not modelled). -/
def handle_dxf_exported (st : Store) (now : Nat) (_fresh : String) (e : SagaEvent) : HResult :=
  match lookupVal e.payload "session_id" with
  | none => HResult.err st "KeyError: session_id" []
  | some _session_id =>
    let dxf_content := (lookupVal e.payload "dxf_content").getD (Value.str "")
    let file_size_bytes := (lookupVal e.payload "file_size_bytes").getD (Value.int 0)
    let export_time_ms := (lookupVal e.payload "export_time_ms").getD (Value.int 0)
    match log_step_completed st now e.saga_id "dxf_export"
        (some [("file_size_bytes", file_size_bytes),
               ("export_time_ms", export_time_ms)]) with
    | Except.error m => HResult.err st m []
    | Except.ok (st1, _) =>
      match update_saga_status st1 now e.saga_id SagaStatus.completed none none with
      | Except.error m => HResult.err st1 m []
      | Except.ok (st2, _) =>
        match get_saga st2 e.saga_id with
        | none => HResult.err st2 "AttributeError: NoneType" []
        | some saga =>
          let rd0 := saga.result_data.getD []
          let rd1 := dictSet rd0 "dxf_content" dxf_content
          let rd2 := dictSet rd1 "file_size_bytes" file_size_bytes
          let rd3 := dictSet rd2 "export_time_ms" export_time_ms
          let rd4 := dictSet rd3 "completed_at" (Value.str (toString now))
          match set_saga_result st2 e.saga_id rd4 with
          | Except.error m => HResult.err st2 m []
          | Except.ok (st3, _) => HResult.ok st3 []

/-- `Orchestrator._handle_workflow_failed`: logs the failed step and marks the
saga `FAILED`; it neither reads the completed steps nor publishes anything. -/
def handle_workflow_failed (st : Store) (now : Nat) (_fresh : String) (e : SagaEvent) : HResult :=
  match lookupVal e.payload "failed_step" with
  | some (Value.str failed_step) =>
    let error_message := e.error_message.getD "Unknown error"
    let st1 := (log_step_failed st now e.saga_id failed_step error_message).1
    match update_saga_status st1 now e.saga_id SagaStatus.failed
        (some failed_step) (some error_message) with
    | Except.error m => HResult.err st1 m []
    | Except.ok (st2, _) => HResult.ok st2 []
  | _ => HResult.err st "KeyError: failed_step" []

/-- `Orchestrator.handle_event`: the `step_handlers` dispatch table keyed by
event type; event types without an entry are a no-op (debug log only). -/
def handle_event (st : Store) (now : Nat) (fresh : String) (e : SagaEvent) : HResult :=
  match e.event_type with
  | EventType.workflow_started => handle_workflow_started st now fresh e
  | EventType.image_processed => handle_image_processed st now fresh e
  | EventType.enhanced_colors_generated => handle_enhanced_colors_generated st now fresh e
  | EventType.enhancement_selected => handle_enhancement_selected st now fresh e
  | EventType.clustering_submitted => handle_clustering_submitted st now fresh e
  | EventType.clustering_completed => handle_clustering_completed st now fresh e
  | EventType.export_requested => handle_export_requested st now fresh e
  | EventType.dxf_exported => handle_dxf_exported st now fresh e
  | EventType.workflow_failed => handle_workflow_failed st now fresh e
  | _ => HResult.ok st []

/-- `Orchestrator.resume_with_enhancement`: guarded on the exact
`AWAITING_ENHANCEMENT_SELECTION` status; returns a boolean, never writes to
the store, and publishes the human-input event on success.  The constructed
`EnhancementSelected` is given no correlation identifier, so it receives the
freshly generated one (`fresh`). -/
def resume_with_enhancement (st : Store) (fresh : String) (now : Nat)
    (saga_id : String) (enhancement_method : String) :
    Store × Bool × List (String × SagaEvent) :=
  match get_saga st saga_id with
  | none => (st, false, [])
  | some saga =>
    if saga.status ≠ SagaStatus.awaiting_enhancement_selection then (st, false, [])
    else
      let enhanced_colors :=
        (lookupVal (saga.result_data.getD []) "enhanced_colors").getD (Value.dict [])
      let ev := EnhancementSelected fresh now saga_id (Value.str saga.session_id)
        (Value.str enhancement_method) enhanced_colors none
      (st, true, [("saga-events", ev)])

/-- `Orchestrator.resume_with_clustering`: guarded on `AWAITING_CLUSTERING`. -/
def resume_with_clustering (st : Store) (fresh : String) (now : Nat)
    (saga_id : String) (clusters_data : Value) :
    Store × Bool × List (String × SagaEvent) :=
  match get_saga st saga_id with
  | none => (st, false, [])
  | some saga =>
    if saga.status ≠ SagaStatus.awaiting_clustering then (st, false, [])
    else
      let ev := ClusteringSubmitted fresh now saga_id (Value.str saga.session_id)
        clusters_data none
      (st, true, [("saga-events", ev)])

/-- `Orchestrator.resume_with_export`: guarded on `AWAITING_EXPORT`. -/
def resume_with_export (st : Store) (fresh : String) (now : Nat)
    (saga_id : String) (export_type : String) :
    Store × Bool × List (String × SagaEvent) :=
  match get_saga st saga_id with
  | none => (st, false, [])
  | some saga =>
    if saga.status ≠ SagaStatus.awaiting_export then (st, false, [])
    else
      let ev := ExportRequested fresh now saga_id (Value.str saga.session_id)
        (Value.str export_type) none
      (st, true, [("saga-events", ev)])

/-- `MAX_RETRIES` from `app/events/bus.py`. -/
def MAX_RETRIES : Nat := 3

/-- The message identity used as retry-counter key:
`f"{msg.topic}:{msg.partition}:{msg.offset}"`. -/
abbrev MsgKey := String × Nat × Nat

/-- A raw Kafka message as seen by `KafkaEventBus.subscribe` (the value is
taken already deserialized into an envelope). -/
structure Msg where
  topic : String
  partition : Nat
  offset : Nat
  value : SagaEvent

/-- The retry-counter key of a message. -/
def msgKey (m : Msg) : MsgKey := (m.topic, m.partition, m.offset)

/-- `self._retry_counts.get(k)` on the in-memory retry map. -/
def lookupCount : List (MsgKey × Nat) → MsgKey → Option Nat
  | [], _ => none
  | e :: t, k => if e.1 = k then some e.2 else lookupCount t k

/-- `self._retry_counts[k] = n` (dict keys are unique: update in place,
append if absent). -/
def setCount : List (MsgKey × Nat) → MsgKey → Nat → List (MsgKey × Nat)
  | [], k, n => [(k, n)]
  | e :: t, k, n => if e.1 = k then (k, n) :: t else e :: setCount t k n

/-- `self._retry_counts.pop(k, None)`. -/
def eraseCount : List (MsgKey × Nat) → MsgKey → List (MsgKey × Nat)
  | [], _ => []
  | e :: t, k => if e.1 = k then t else e :: eraseCount t k

/-- The process-memory state of the bus consumer (`KafkaEventBus._retry_counts`). -/
structure BusState where
  retry_counts : List (MsgKey × Nat)

/-- A message published to `saga-events-dlq` by `KafkaEventBus._send_to_dlq`. -/
structure DlqMessage where
  original_message : SagaEvent
  error : String
  original_topic : String
  retry_count : Nat

/-- The externally observable outcome of one `subscribe`-loop iteration on
one message: whether its offset was committed, what went to the DLQ, and
what was yielded onward to the `async for` consumer. -/
structure BusEffects where
  committed : Bool
  dlq : List DlqMessage
  yielded : List SagaEvent

/-- One iteration of the `KafkaEventBus.subscribe` loop body on one message
(`app/events/bus.py`, lines 135-177).  With a handler: a raised exception
increments the in-memory retry counter for the message identity; reaching
`MAX_RETRIES` forwards the message to the DLQ, commits the offset and clears
the counter; below the threshold the offset is not committed.  Success — and
the no-handler case, where nothing can fail before the commit statement —
commits the offset, clears the counter and yields the event. -/
def bus_process_msg (bs : BusState) (m : Msg)
    (handler : Option (SagaEvent → Except String Unit)) : BusState × BusEffects :=
  let key := msgKey m
  let outcome : Except String Unit :=
    match handler with
    | none => Except.ok ()
    | some h => h m.value
  match outcome with
  | Except.ok _ =>
    ({ retry_counts := eraseCount bs.retry_counts key },
     { committed := true, dlq := [], yielded := [m.value] })
  | Except.error e =>
    let retry_count := (lookupCount bs.retry_counts key).getD 0 + 1
    let bs1 : BusState := { retry_counts := setCount bs.retry_counts key retry_count }
    if MAX_RETRIES ≤ retry_count then
      ({ retry_counts := eraseCount bs1.retry_counts key },
       { committed := true
         dlq := [{ original_message := m.value, error := e,
                   original_topic := m.topic, retry_count := MAX_RETRIES }]
         yielded := [] })
    else
      (bs1, { committed := false, dlq := [], yielded := [] })

/-- The outcome of one iteration of `Orchestrator.run` on one message. -/
structure RunResult where
  bus : BusState
  store : Store
  committed : Bool
  dlq : List DlqMessage
  published : List (String × SagaEvent)
  handler_error : Option String

/-- One iteration of `Orchestrator.run` (`orchestrator.py`, lines 508-519)
on one message: `run` subscribes with *no* handler argument, so the bus
commits the offset and yields; the loop body then dispatches `handle_event`
inside `try/except`, logging and swallowing any exception. -/
def run_iteration (bs : BusState) (st : Store) (now : Nat) (fresh : String) (m : Msg) : RunResult :=
  let pr := bus_process_msg bs m none
  let fin := pr.2.yielded.foldl
    (fun acc e =>
      match handle_event acc.1 now fresh e with
      | HResult.ok st1 pubs => (st1, acc.2.1 ++ pubs, acc.2.2)
      | HResult.err st1 msg pubs => (st1, acc.2.1 ++ pubs, some msg))
    (st, ([] : List (String × SagaEvent)), (none : Option String))
  { bus := pr.1
    store := fin.1
    committed := pr.2.committed
    dlq := pr.2.dlq
    published := fin.2.1
    handler_error := fin.2.2 }

/-! Helper lemmas about the retry-counter association list. -/

theorem lookupCount_eq_none_no_key (rc : List (MsgKey × Nat)) (k : MsgKey)
    (h : lookupCount rc k = none) : ∀ e ∈ rc, e.1 ≠ k := by
  induction rc with
  | nil => intro e he; cases he
  | cons a t ih =>
    intro e he
    by_cases hak : a.1 = k
    · simp [lookupCount, hak] at h
    · cases he with
      | head => exact hak
      | tail _ he2 => exact ih (by simpa [lookupCount, hak] using h) e he2

theorem setCount_of_no_key (rc : List (MsgKey × Nat)) (k : MsgKey) (n : Nat)
    (h : ∀ e ∈ rc, e.1 ≠ k) : setCount rc k n = rc ++ [(k, n)] := by
  induction rc with
  | nil => rfl
  | cons a t ih =>
    have hak : a.1 ≠ k := h a (by simp)
    simp [setCount, hak]
    exact ih fun e he => h e (by simp [he])

theorem setCount_append_of_no_key (rc : List (MsgKey × Nat)) (k : MsgKey) (a n : Nat)
    (h : ∀ e ∈ rc, e.1 ≠ k) : setCount (rc ++ [(k, a)]) k n = rc ++ [(k, n)] := by
  induction rc with
  | nil => simp [setCount]
  | cons b t ih =>
    have hbk : b.1 ≠ k := h b (by simp)
    simp [setCount, hbk]
    exact ih fun e he => h e (by simp [he])

theorem lookupCount_append_of_no_key (rc : List (MsgKey × Nat)) (k : MsgKey) (a : Nat)
    (h : ∀ e ∈ rc, e.1 ≠ k) : lookupCount (rc ++ [(k, a)]) k = some a := by
  induction rc with
  | nil => simp [lookupCount]
  | cons b t ih =>
    have hbk : b.1 ≠ k := h b (by simp)
    simp [lookupCount, hbk]
    exact ih fun e he => h e (by simp [he])

theorem eraseCount_append_of_no_key (rc : List (MsgKey × Nat)) (k : MsgKey) (a : Nat)
    (h : ∀ e ∈ rc, e.1 ≠ k) : eraseCount (rc ++ [(k, a)]) k = rc := by
  induction rc with
  | nil => simp [eraseCount]
  | cons b t ih =>
    have hbk : b.1 ≠ k := h b (by simp)
    simp [eraseCount, hbk]
    exact ih fun e he => h e (by simp [he])

/-! Helper lemmas about `get_saga` / `set_saga`. -/

theorem get_saga_id (st : Store) (id : String) (s : Saga)
    (h : get_saga st id = some s) : s.id = id := by
  have := List.find?_some h
  exact eq_of_beq this

theorem find?_map_replace (l : List Saga) (id : String) (s0 s1 : Saga)
    (h : l.find? (fun t => t.id == id) = some s0) (hid : s1.id = id) :
    (l.map fun t => if t.id = s1.id then s1 else t).find? (fun t => t.id == id) =
      some s1 := by
  induction l with
  | nil => cases h
  | cons a t ih =>
    by_cases hak : a.id = id
    · have ha1 : a.id = s1.id := by rw [hak, hid]
      simp only [List.map_cons, if_pos ha1]
      exact List.find?_cons_of_pos _ (by simp [hid])
    · have hne : ¬((a.id == id) = true) := by simpa using hak
      rw [@List.find?_cons_of_neg _ (fun t => t.id == id) a t hne] at h
      by_cases ha1 : a.id = s1.id
      · exact absurd (ha1.trans hid) hak
      · simp only [List.map_cons, if_neg ha1]
        rw [@List.find?_cons_of_neg _ (fun t => t.id == id) a _ hne]
        exact ih h

theorem get_saga_set_saga (st : Store) (id : String) (s0 s1 : Saga)
    (h : get_saga st id = some s0) (hid : s1.id = id) :
    get_saga (set_saga st s1) id = some s1 :=
  find?_map_replace st.sagas id s0 s1 h hid


/-! Helper lemmas about `find_started` (the `ORDER BY id DESC` lookup). -/

theorem find_started_mem_match (logs : List SagaStepLog) (sid name : String)
    (l : SagaStepLog) (h : find_started logs sid name = some l) :
    l ∈ logs ∧ startedMatch sid name l = true := by
  induction logs generalizing l with
  | nil => cases h
  | cons a t ih =>
    cases hrec : find_started t sid name with
    | none =>
      simp only [find_started, hrec] at h
      by_cases hma : startedMatch sid name a = true
      · rw [if_pos hma] at h
        obtain rfl := Option.some.inj h
        exact ⟨List.mem_cons_self _ _, hma⟩
      · rw [if_neg hma] at h; cases h
    | some m =>
      simp only [find_started, hrec] at h
      obtain ⟨hmem, hmatch⟩ := ih m hrec
      by_cases hma : startedMatch sid name a = true
      · rw [if_pos hma] at h
        by_cases hlt : a.id < m.id
        · rw [if_pos hlt] at h
          obtain rfl := Option.some.inj h
          exact ⟨List.mem_cons_of_mem _ hmem, hmatch⟩
        · rw [if_neg hlt] at h
          obtain rfl := Option.some.inj h
          exact ⟨List.mem_cons_self _ _, hma⟩
      · rw [if_neg hma] at h
        obtain rfl := Option.some.inj h
        exact ⟨List.mem_cons_of_mem _ hmem, hmatch⟩

theorem find_started_none_of (logs : List SagaStepLog) (sid name : String)
    (h : ∀ m ∈ logs, startedMatch sid name m = false) :
    find_started logs sid name = none := by
  induction logs with
  | nil => rfl
  | cons a t ih =>
    have ha := h a (List.mem_cons_self _ _)
    have ht := ih fun m hm => h m (List.mem_cons_of_mem _ hm)
    simp [find_started, ht, ha]

theorem find_started_none_forall (logs : List SagaStepLog) (sid name : String)
    (h : find_started logs sid name = none) :
    ∀ m ∈ logs, startedMatch sid name m = false := by
  induction logs with
  | nil => intro m hm; cases hm
  | cons a t ih =>
    cases hrec : find_started t sid name with
    | none =>
      simp only [find_started, hrec] at h
      by_cases hma : startedMatch sid name a = true
      · rw [if_pos hma] at h; cases h
      · intro m hm
        rcases List.mem_cons.mp hm with rfl | hm2
        · exact Bool.eq_false_iff.mpr hma
        · exact ih hrec m hm2
    | some mx =>
      simp only [find_started, hrec] at h
      by_cases hma : startedMatch sid name a = true
      · rw [if_pos hma] at h
        by_cases hlt : a.id < mx.id
        · rw [if_pos hlt] at h; cases h
        · rw [if_neg hlt] at h; cases h
      · rw [if_neg hma] at h; cases h

theorem find_started_max (logs : List SagaStepLog) (sid name : String)
    (l : SagaStepLog) (h : find_started logs sid name = some l) :
    ∀ m ∈ logs, startedMatch sid name m = true → m.id ≤ l.id := by
  induction logs generalizing l with
  | nil => cases h
  | cons a t ih =>
    cases hrec : find_started t sid name with
    | none =>
      simp only [find_started, hrec] at h
      have ht := find_started_none_forall t sid name hrec
      by_cases hma : startedMatch sid name a = true
      · rw [if_pos hma] at h
        obtain rfl := Option.some.inj h
        intro m hm hmatch
        rcases List.mem_cons.mp hm with rfl | hm2
        · exact Nat.le_refl _
        · rw [ht m hm2] at hmatch; cases hmatch
      · rw [if_neg hma] at h; cases h
    | some mx =>
      simp only [find_started, hrec] at h
      have ihx := ih mx hrec
      by_cases hma : startedMatch sid name a = true
      · rw [if_pos hma] at h
        by_cases hlt : a.id < mx.id
        · rw [if_pos hlt] at h
          obtain rfl := Option.some.inj h
          intro m hm hmatch
          rcases List.mem_cons.mp hm with rfl | hm2
          · exact Nat.le_of_lt hlt
          · exact ihx m hm2 hmatch
        · rw [if_neg hlt] at h
          obtain rfl := Option.some.inj h
          intro m hm hmatch
          rcases List.mem_cons.mp hm with rfl | hm2
          · exact Nat.le_refl _
          · exact Nat.le_trans (ihx m hm2 hmatch) (Nat.le_of_not_lt hlt)
      · rw [if_neg hma] at h
        obtain rfl := Option.some.inj h
        intro m hm hmatch
        rcases List.mem_cons.mp hm with rfl | hm2
        · rw [Bool.eq_false_iff.mpr hma] at hmatch; cases hmatch
        · exact ihx m hm2 hmatch

/-! Inversion lemmas for the repository operations. -/

theorem log_step_completed_ok_inv (st : Store) (now : Nat) (sid name : String)
    (out : Option (List (String × Value))) (st' : Store) (row : SagaStepLog)
    (h : log_step_completed st now sid name out = Except.ok (st', row)) :
    ∃ target, find_started st.step_logs sid name = some target ∧
      row = { target with
              status := "completed"
              output_data := out
              completed_at := some now
              duration_ms := some (now - target.started_at) } ∧
      st'.step_logs = st.step_logs.map (fun l => if l.id = target.id then row else l) ∧
      st'.sagas = st.sagas ∧ st'.next_log_id = st.next_log_id := by
  unfold log_step_completed at h
  cases hfs : find_started st.step_logs sid name with
  | none => rw [hfs] at h; cases h
  | some target =>
    rw [hfs] at h
    simp only [Except.ok.injEq, Prod.mk.injEq] at h
    obtain ⟨hst, hrow⟩ := h
    subst hrow
    subst hst
    exact ⟨target, rfl, rfl, rfl, rfl, rfl⟩

theorem update_saga_status_ok_inv (st : Store) (now : Nat) (id : String)
    (status : SagaStatus) (cs em : Option String) (st' : Store) (saga' : Saga)
    (h : update_saga_status st now id status cs em = Except.ok (st', saga')) :
    ∃ saga, get_saga st id = some saga ∧
      saga'.id = saga.id ∧ saga'.status = status ∧
      saga'.created_at = saga.created_at ∧
      st' = set_saga st saga' ∧
      st'.step_logs = st.step_logs ∧ st'.next_log_id = st.next_log_id ∧
      get_saga st' id = some saga' := by
  unfold update_saga_status at h
  cases hg : get_saga st id with
  | none => rw [hg] at h; cases h
  | some saga =>
    rw [hg] at h
    simp only [Except.ok.injEq, Prod.mk.injEq] at h
    obtain ⟨hst, hsaga⟩ := h
    subst hsaga
    subst hst
    refine ⟨saga, rfl, rfl, rfl, rfl, rfl, rfl, rfl, ?_⟩
    exact get_saga_set_saga st id saga _ hg (get_saga_id st id saga hg)

theorem set_saga_result_ok_inv (st : Store) (id : String)
    (rd : List (String × Value)) (st' : Store) (saga' : Saga)
    (h : set_saga_result st id rd = Except.ok (st', saga')) :
    ∃ saga, get_saga st id = some saga ∧
      saga' = { saga with result_data := some rd } ∧
      saga'.status = saga.status ∧
      st' = set_saga st saga' ∧
      st'.step_logs = st.step_logs ∧ st'.next_log_id = st.next_log_id ∧
      get_saga st' id = some saga' := by
  unfold set_saga_result at h
  cases hg : get_saga st id with
  | none => rw [hg] at h; cases h
  | some saga =>
    rw [hg] at h
    simp only [Except.ok.injEq, Prod.mk.injEq] at h
    obtain ⟨hst, hsaga⟩ := h
    subst hsaga
    subst hst
    refine ⟨saga, rfl, rfl, rfl, rfl, rfl, rfl, ?_⟩
    exact get_saga_set_saga st id saga _ hg (get_saga_id st id saga hg)

theorem log_step_failed_sagas (st : Store) (now : Nat) (sid name em : String) :
    ((log_step_failed st now sid name em).1).sagas = st.sagas := by
  unfold log_step_failed
  cases find_started st.step_logs sid name <;> rfl

theorem get_saga_congr (st1 st2 : Store) (id : String)
    (h : st1.sagas = st2.sagas) : get_saga st1 id = get_saga st2 id := by
  unfold get_saga; rw [h]

/-! Concrete fixtures and theorems for claim C1. -/

def sagaC1 : Saga :=
  { id := "saga-c1"
    workflow_type := "image_to_cad"
    status := SagaStatus.completed
    current_step := none
    session_id := "sess-c1"
    created_at := 0
    updated_at := 90
    completed_at := some 90
    result_data := none
    error_message := none
    total_duration_ms := some 90 }

def storeC1 : Store :=
  { sagas := [sagaC1], step_logs := [], compensations := [], next_log_id := 1 }

/-- Claim C1, counterexample: a saga already in the terminal status
`COMPLETED` has its status changed to `FAILED` by a subsequent
`update_saga_status` call — the store applies the new status and persists
it, so terminal statuses are not immutable. -/
theorem c1_counterexample :
    (get_saga storeC1 "saga-c1").map Saga.status = some SagaStatus.completed ∧
    (update_saga_status storeC1 200 "saga-c1" SagaStatus.failed none none).map
        (fun r => (get_saga r.1 "saga-c1").map Saga.status) =
      Except.ok (some SagaStatus.failed) :=
  ⟨rfl, rfl⟩

/-- Claim C1 (amended): `update_saga_status` contains no terminal-status
guard: for every existing saga — whatever its current status, terminal
included — the call succeeds and unconditionally sets the status to the
requested value, persisting it in the store. -/
theorem c1_no_terminal_guard (st : Store) (now : Nat) (id : String)
    (status : SagaStatus) (cs em : Option String) (saga : Saga)
    (h : get_saga st id = some saga) :
    ∃ st' saga', update_saga_status st now id status cs em = Except.ok (st', saga') ∧
      saga'.status = status ∧ get_saga st' id = some saga' := by
  unfold update_saga_status
  rw [h]
  refine ⟨_, _, rfl, rfl, ?_⟩
  exact get_saga_set_saga st id saga _ h (get_saga_id st id saga h)

/-- Claim C1, witness: the amended theorem applied to the concrete
terminal (`COMPLETED`) saga `sagaC1`. -/
theorem c1_witness :
    get_saga storeC1 "saga-c1" = some sagaC1 ∧
    (∃ st' saga',
      update_saga_status storeC1 200 "saga-c1" SagaStatus.failed none none =
        Except.ok (st', saga') ∧
      saga'.status = SagaStatus.failed ∧ get_saga st' "saga-c1" = some saga') :=
  ⟨rfl, c1_no_terminal_guard storeC1 200 "saga-c1" SagaStatus.failed none none sagaC1 rfl⟩

/-! Concrete fixtures and theorems for claim C9. -/

def sagaC9 : Saga :=
  { id := "saga-c9"
    workflow_type := "image_to_cad"
    status := SagaStatus.dxf_export
    current_step := some "dxf_export"
    session_id := "sess-c9"
    created_at := 40
    updated_at := 60
    completed_at := none
    result_data := none
    error_message := none
    total_duration_ms := none }

def storeC9 : Store :=
  { sagas := [sagaC9], step_logs := [], compensations := [], next_log_id := 1 }

/-- Claim C9: for every existing saga, `update_saga_status` with a terminal
status (`COMPLETED`, `FAILED` or `COMPENSATED`) stamps `completed_at` with
the current time and sets `total_duration_ms` to the elapsed milliseconds
since `created_at`; with an unknown saga identifier it fails with the
"Saga not found" error. -/
theorem c9_terminal_stamps :
    (∀ (st : Store) (now : Nat) (id : String) (status : SagaStatus)
        (cs em : Option String) (saga : Saga),
      get_saga st id = some saga →
      (status = SagaStatus.completed ∨ status = SagaStatus.failed ∨
        status = SagaStatus.compensated) →
      ∃ st' saga',
        update_saga_status st now id status cs em = Except.ok (st', saga') ∧
        saga'.completed_at = some now ∧
        saga'.total_duration_ms = some (now - saga.created_at)) ∧
    (∀ (st : Store) (now : Nat) (id : String) (status : SagaStatus)
        (cs em : Option String),
      get_saga st id = none →
      update_saga_status st now id status cs em =
        Except.error ("Saga not found: " ++ id)) := by
  constructor
  · intro st now id status cs em saga hg hterm
    unfold update_saga_status
    rw [hg]
    exact ⟨_, _, rfl, if_pos hterm, if_pos hterm⟩
  · intro st now id status cs em hg
    unfold update_saga_status
    rw [hg]

/-- Claim C9, witness: the theorem applied to the concrete saga `sagaC9`
(created at 40, completed at 100, duration 60 ms) and to a missing
identifier. -/
theorem c9_witness :
    get_saga storeC9 "saga-c9" = some sagaC9 ∧
    (∃ st' saga',
      update_saga_status storeC9 100 "saga-c9" SagaStatus.completed none none =
        Except.ok (st', saga') ∧
      saga'.completed_at = some 100 ∧
      saga'.total_duration_ms = some (100 - sagaC9.created_at)) ∧
    get_saga storeC9 "missing" = none ∧
    update_saga_status storeC9 100 "missing" SagaStatus.failed none none =
      Except.error ("Saga not found: " ++ "missing") :=
  ⟨rfl,
   c9_terminal_stamps.1 storeC9 100 "saga-c9" SagaStatus.completed none none sagaC9
     rfl (Or.inl rfl),
   rfl,
   c9_terminal_stamps.2 storeC9 100 "missing" SagaStatus.failed none none rfl⟩

/-! Concrete fixtures and theorems for claim C7. -/

def sagaC7 : Saga :=
  { id := "saga-c7"
    workflow_type := "image_to_cad"
    status := SagaStatus.started
    current_step := none
    session_id := "sess-c7"
    created_at := 0
    updated_at := 0
    completed_at := none
    result_data := none
    error_message := none
    total_duration_ms := none }

def storeC7 : Store :=
  { sagas := [sagaC7], step_logs := [], compensations := [], next_log_id := 1 }

/-- Claim C7: each resume operation, called on a saga whose status is not
the exact expected `AWAITING_*` value (including a missing saga), returns
`false`, publishes nothing and leaves the store untouched. -/
theorem c7_resume_guards :
    (∀ (st : Store) (fresh : String) (now : Nat) (id method : String),
      (∀ saga, get_saga st id = some saga →
        saga.status ≠ SagaStatus.awaiting_enhancement_selection) →
      resume_with_enhancement st fresh now id method = (st, false, [])) ∧
    (∀ (st : Store) (fresh : String) (now : Nat) (id : String) (cd : Value),
      (∀ saga, get_saga st id = some saga →
        saga.status ≠ SagaStatus.awaiting_clustering) →
      resume_with_clustering st fresh now id cd = (st, false, [])) ∧
    (∀ (st : Store) (fresh : String) (now : Nat) (id et : String),
      (∀ saga, get_saga st id = some saga →
        saga.status ≠ SagaStatus.awaiting_export) →
      resume_with_export st fresh now id et = (st, false, [])) := by
  refine ⟨?_, ?_, ?_⟩
  · intro st fresh now id method h
    unfold resume_with_enhancement
    cases hg : get_saga st id with
    | none => rfl
    | some saga => exact if_pos (h saga hg)
  · intro st fresh now id cd h
    unfold resume_with_clustering
    cases hg : get_saga st id with
    | none => rfl
    | some saga => exact if_pos (h saga hg)
  · intro st fresh now id et h
    unfold resume_with_export
    cases hg : get_saga st id with
    | none => rfl
    | some saga => exact if_pos (h saga hg)

/-- Claim C7, witness: the guards applied to a concrete saga in status
`STARTED` (enhancement resume) and to a missing saga identifier
(clustering and export resumes). -/
theorem c7_witness :
    resume_with_enhancement storeC7 "u7" 0 "saga-c7" "vibrant" = (storeC7, false, []) ∧
    resume_with_clustering storeC7 "u7" 0 "nope" (Value.dict []) = (storeC7, false, []) ∧
    resume_with_export storeC7 "u7" 0 "nope" "detailed" = (storeC7, false, []) := by
  refine ⟨?_, ?_, ?_⟩
  · refine c7_resume_guards.1 storeC7 "u7" 0 "saga-c7" "vibrant" ?_
    intro saga hs
    rw [show get_saga storeC7 "saga-c7" = some sagaC7 from rfl] at hs
    obtain rfl := Option.some.inj hs
    decide
  · refine c7_resume_guards.2.1 storeC7 "u7" 0 "nope" (Value.dict []) ?_
    intro saga hs
    rw [show get_saga storeC7 "nope" = none from rfl] at hs
    cases hs
  · refine c7_resume_guards.2.2 storeC7 "u7" 0 "nope" "detailed" ?_
    intro saga hs
    rw [show get_saga storeC7 "nope" = none from rfl] at hs
    cases hs

/-! Concrete fixtures and theorems for claim C10. -/

def storeC10 : Store :=
  { sagas := [], step_logs := [], compensations := [], next_log_id := 1 }

def evC10 : SagaEvent :=
  { saga_id := "saga-c10"
    event_type := EventType.workflow_completed
    correlation_id := "corr-c10"
    timestamp := 3
    payload := [("session_id", Value.str "sess-c10")]
    metadata := []
    retry_count := 0
    error_message := none }

/-- Claim C10: for every event whose type has no entry in the dispatch
table — `workflow_completed`, the compensation events, and all command
event types — `handle_event` is a no-op: same store, no published events,
no error. -/
theorem c10_unhandled_noop (st : Store) (now : Nat) (fresh : String)
    (e : SagaEvent)
    (h : e.event_type = EventType.workflow_completed ∨
         e.event_type = EventType.compensation_requested ∨
         e.event_type = EventType.compensation_completed ∨
         e.event_type = EventType.image_processing_requested ∨
         e.event_type = EventType.clustering_requested ∨
         e.event_type = EventType.dxf_export_requested ∨
         e.event_type = EventType.enhanced_colors_requested) :
    handle_event st now fresh e = HResult.ok st [] := by
  rcases h with h | h | h | h | h | h | h <;> simp [handle_event, h]

/-- Claim C10, witness: the no-op dispatch applied to a concrete
`workflow_completed` event on an empty store. -/
theorem c10_witness :
    evC10.event_type = EventType.workflow_completed ∧
    handle_event storeC10 3 "u10" evC10 = HResult.ok storeC10 [] :=
  ⟨rfl, c10_unhandled_noop storeC10 3 "u10" evC10 (Or.inl rfl)⟩

/-! Concrete fixtures and theorems for claim C3. -/

def storeC3 : Store :=
  { sagas := [], step_logs := [], compensations := [], next_log_id := 1 }

def evC3 : SagaEvent :=
  { saga_id := "ghost"
    event_type := EventType.workflow_started
    correlation_id := "corr-c3"
    timestamp := 5
    payload := [("session_id", Value.str "sess-c3")]
    metadata := []
    retry_count := 0
    error_message := none }

def msgC3 : Msg := { topic := "saga-events", partition := 0, offset := 0, value := evC3 }

def busC3 : BusState := { retry_counts := [] }

/-- Claim C3, counterexample: a message whose dispatched handler raises
("Saga not found") still has its offset committed — `run` subscribes with
no handler, so the bus commits before yielding, and the run loop catches
the exception; nothing is left for redelivery or the DLQ. -/
theorem c3_counterexample :
    (run_iteration busC3 storeC3 5 "u3" msgC3).handler_error =
      some ("Saga not found: " ++ "ghost") ∧
    (run_iteration busC3 storeC3 5 "u3" msgC3).committed = true ∧
    (run_iteration busC3 storeC3 5 "u3" msgC3).dlq = [] :=
  ⟨rfl, rfl, rfl⟩

/-- Claim C3 (amended): in every `run`-loop iteration the offset is
committed unconditionally — the orchestrator passes no handler to
`subscribe`, so the bus commits before yielding the event, and any
exception raised by the dispatched handler is caught and logged by the
loop; the event is never left uncommitted and never dead-lettered through
this path. -/
theorem c3_commit_before_dispatch (bs : BusState) (st : Store) (now : Nat)
    (fresh : String) (m : Msg) :
    (run_iteration bs st now fresh m).committed = true ∧
    (run_iteration bs st now fresh m).dlq = [] := ⟨rfl, rfl⟩

/-! Concrete fixtures and theorems for claim C2. -/

def sagaC2 : Saga :=
  { id := "saga-c2"
    workflow_type := "image_to_cad"
    status := SagaStatus.processing_clustering
    current_step := some "clustering"
    session_id := "sess-c2"
    created_at := 0
    updated_at := 6
    completed_at := none
    result_data := none
    error_message := none
    total_duration_ms := none }

def stepC2 : SagaStepLog :=
  { id := 1
    saga_id := "saga-c2"
    step_number := 1
    step_name := "image_processing"
    status := "completed"
    event_type := some EventType.image_processing_requested
    correlation_id := some "corr-c2"
    input_data := none
    output_data := none
    error_message := none
    started_at := 0
    completed_at := some 5
    duration_ms := some 5 }

def storeC2 : Store :=
  { sagas := [sagaC2], step_logs := [stepC2], compensations := [], next_log_id := 2 }

def evC2 : SagaEvent :=
  { saga_id := "saga-c2"
    event_type := EventType.workflow_failed
    correlation_id := "corr-c2"
    timestamp := 9
    payload := [("session_id", Value.str "sess-c2"),
                ("failed_step", Value.str "clustering")]
    metadata := []
    retry_count := 0
    error_message := some "clustering blew up" }

/-- Claim C2, counterexample: a `workflow_failed` event handled on a saga
with one previously completed step (`image_processing`) leaves the saga in
status `FAILED` — not `COMPENSATING` — and publishes no event at all, in
particular no compensation-requested command. -/
theorem c2_counterexample :
    get_completed_steps storeC2 "saga-c2" = ["image_processing"] ∧
    (handle_event storeC2 9 "u2" evC2).errored = none ∧
    (handle_event storeC2 9 "u2" evC2).published = [] ∧
    (get_saga (handle_event storeC2 9 "u2" evC2).store "saga-c2").map Saga.status =
      some SagaStatus.failed :=
  ⟨rfl, rfl, rfl, rfl⟩

/-- Claim C2 (amended): for every `workflow_failed` event on an existing
saga, the handler logs the failed step, marks the saga `FAILED` and
publishes nothing — regardless of whether any step had completed; no
`COMPENSATING` transition and no compensation-requested command exist in
the handler. -/
theorem c2_failed_no_compensation (st : Store) (now : Nat) (fresh : String)
    (e : SagaEvent) (fs : String) (saga : Saga)
    (hty : e.event_type = EventType.workflow_failed)
    (hfs : lookupVal e.payload "failed_step" = some (Value.str fs))
    (hg : get_saga st e.saga_id = some saga) :
    ∃ st' saga', handle_event st now fresh e = HResult.ok st' [] ∧
      get_saga st' e.saga_id = some saga' ∧ saga'.status = SagaStatus.failed := by
  simp only [handle_event, hty]
  unfold handle_workflow_failed
  simp only [hfs]
  have hg1 : get_saga (log_step_failed st now e.saga_id fs
      (e.error_message.getD "Unknown error")).1 e.saga_id = some saga := by
    rw [get_saga_congr _ st _ (log_step_failed_sagas st now e.saga_id fs
      (e.error_message.getD "Unknown error"))]
    exact hg
  obtain ⟨st', saga', hupd, hstat, hget⟩ :=
    c1_no_terminal_guard (log_step_failed st now e.saga_id fs
        (e.error_message.getD "Unknown error")).1 now e.saga_id SagaStatus.failed
      (some fs) (some (e.error_message.getD "Unknown error")) saga hg1
  refine ⟨st', saga', ?_, hget, hstat⟩
  simp only [hupd]

/-- Claim C2, witness: the amended theorem applied to the concrete saga
with one completed step and the concrete `workflow_failed` event. -/
theorem c2_witness :
    evC2.event_type = EventType.workflow_failed ∧
    lookupVal evC2.payload "failed_step" = some (Value.str "clustering") ∧
    get_saga storeC2 "saga-c2" = some sagaC2 ∧
    (∃ st' saga', handle_event storeC2 9 "u2w" evC2 = HResult.ok st' [] ∧
      get_saga st' "saga-c2" = some saga' ∧ saga'.status = SagaStatus.failed) :=
  ⟨rfl, rfl, rfl,
   c2_failed_no_compensation storeC2 9 "u2w" evC2 "clustering" sagaC2 rfl rfl rfl⟩

/-! Fixtures and theorems for claim C6 (the bus bounded-retry/DLQ policy). -/

/-- A handler that raises on every attempt. -/
def failing_handler (emsg : String) : Option (SagaEvent → Except String Unit) :=
  some fun _x => Except.error emsg

/-- First delivery attempt of a poison message. -/
def attempt1 (bs : BusState) (m : Msg) (emsg : String) : BusState × BusEffects :=
  bus_process_msg bs m (failing_handler emsg)

/-- Second delivery attempt (after the first failed without commit). -/
def attempt2 (bs : BusState) (m : Msg) (emsg : String) : BusState × BusEffects :=
  bus_process_msg (attempt1 bs m emsg).1 m (failing_handler emsg)

/-- Third delivery attempt. -/
def attempt3 (bs : BusState) (m : Msg) (emsg : String) : BusState × BusEffects :=
  bus_process_msg (attempt2 bs m emsg).1 m (failing_handler emsg)

/-- Claim C6: starting with no retry entry for the message, each failing
attempt increments the in-memory counter keyed by (topic, partition,
offset) without committing; on the third attempt (`MAX_RETRIES = 3`)
exactly one dead-letter message carrying the original message, the error
and the source topic is emitted, the offset is committed, and the counter
entry is cleared. -/
theorem c6_retry_then_dlq (bs : BusState) (m : Msg) (emsg : String)
    (h : lookupCount bs.retry_counts (msgKey m) = none) :
    (attempt1 bs m emsg).2.committed = false ∧
    (attempt1 bs m emsg).2.dlq = [] ∧
    lookupCount (attempt1 bs m emsg).1.retry_counts (msgKey m) = some 1 ∧
    (attempt2 bs m emsg).2.committed = false ∧
    (attempt2 bs m emsg).2.dlq = [] ∧
    lookupCount (attempt2 bs m emsg).1.retry_counts (msgKey m) = some 2 ∧
    (attempt3 bs m emsg).2.committed = true ∧
    (attempt3 bs m emsg).2.dlq =
      [{ original_message := m.value, error := emsg,
         original_topic := m.topic, retry_count := MAX_RETRIES }] ∧
    lookupCount (attempt3 bs m emsg).1.retry_counts (msgKey m) = none := by
  have hnk := lookupCount_eq_none_no_key bs.retry_counts (msgKey m) h
  have e1 : attempt1 bs m emsg =
      ({ retry_counts := bs.retry_counts ++ [(msgKey m, 1)] },
       { committed := false, dlq := [], yielded := [] }) := by
    unfold attempt1 bus_process_msg failing_handler
    simp only [h, Option.getD_none, Nat.zero_add, MAX_RETRIES]
    rw [if_neg (by decide : ¬(3 ≤ 1))]
    rw [setCount_of_no_key bs.retry_counts (msgKey m) 1 hnk]
  have e2 : attempt2 bs m emsg =
      ({ retry_counts := bs.retry_counts ++ [(msgKey m, 2)] },
       { committed := false, dlq := [], yielded := [] }) := by
    unfold attempt2 bus_process_msg failing_handler
    rw [e1]
    simp only [lookupCount_append_of_no_key bs.retry_counts (msgKey m) 1 hnk,
      Option.getD_some, Nat.reduceAdd, MAX_RETRIES]
    rw [if_neg (by decide : ¬(3 ≤ 2))]
    rw [setCount_append_of_no_key bs.retry_counts (msgKey m) 1 2 hnk]
  have e3 : attempt3 bs m emsg =
      ({ retry_counts := bs.retry_counts },
       { committed := true
         dlq := [{ original_message := m.value, error := emsg,
                   original_topic := m.topic, retry_count := MAX_RETRIES }]
         yielded := [] }) := by
    unfold attempt3 bus_process_msg failing_handler
    rw [e2]
    simp only [lookupCount_append_of_no_key bs.retry_counts (msgKey m) 2 hnk,
      Option.getD_some, Nat.reduceAdd, MAX_RETRIES]
    rw [if_pos (by decide : (3 : Nat) ≤ 3)]
    rw [setCount_append_of_no_key bs.retry_counts (msgKey m) 2 3 hnk]
    rw [eraseCount_append_of_no_key bs.retry_counts (msgKey m) 3 hnk]
  refine ⟨?_, ?_, ?_, ?_, ?_, ?_, ?_, ?_, ?_⟩
  · rw [e1]
  · rw [e1]
  · rw [e1]
    exact lookupCount_append_of_no_key bs.retry_counts (msgKey m) 1 hnk
  · rw [e2]
  · rw [e2]
  · rw [e2]
    exact lookupCount_append_of_no_key bs.retry_counts (msgKey m) 2 hnk
  · rw [e3]
  · rw [e3]
  · rw [e3]
    exact h

def busC6 : BusState := { retry_counts := [] }

def evC6 : SagaEvent :=
  { saga_id := "saga-c6"
    event_type := EventType.image_processed
    correlation_id := "corr-c6"
    timestamp := 7
    payload := []
    metadata := []
    retry_count := 0
    error_message := none }

def msgC6 : Msg := { topic := "saga-events", partition := 0, offset := 4, value := evC6 }

/-- Claim C6, witness: the retry/DLQ policy applied to a concrete poison
message on a fresh consumer. -/
theorem c6_witness :
    lookupCount busC6.retry_counts (msgKey msgC6) = none ∧
    ((attempt1 busC6 msgC6 "boom").2.committed = false ∧
     (attempt1 busC6 msgC6 "boom").2.dlq = [] ∧
     lookupCount (attempt1 busC6 msgC6 "boom").1.retry_counts (msgKey msgC6) = some 1 ∧
     (attempt2 busC6 msgC6 "boom").2.committed = false ∧
     (attempt2 busC6 msgC6 "boom").2.dlq = [] ∧
     lookupCount (attempt2 busC6 msgC6 "boom").1.retry_counts (msgKey msgC6) = some 2 ∧
     (attempt3 busC6 msgC6 "boom").2.committed = true ∧
     (attempt3 busC6 msgC6 "boom").2.dlq =
       [{ original_message := msgC6.value, error := "boom",
          original_topic := msgC6.topic, retry_count := MAX_RETRIES }] ∧
     lookupCount (attempt3 busC6 msgC6 "boom").1.retry_counts (msgKey msgC6) = none) :=
  ⟨rfl, c6_retry_then_dlq busC6 msgC6 "boom" rfl⟩

/-! Fixtures and theorems for claim C8 (step-log resolution). -/

/-- The `failed` row `log_step_failed` synthesizes when no `started` row
matches (saga_repository.py, lines 172-183). -/
def synthesized_failed_row (st : Store) (now : Nat) (sid name em : String) :
    SagaStepLog :=
  { id := st.next_log_id
    saga_id := sid
    step_number := 0
    step_name := name
    status := "failed"
    event_type := none
    correlation_id := none
    input_data := none
    output_data := none
    error_message := some em
    started_at := now
    completed_at := some now
    duration_ms := none }

/-- Claim C8: the completion/failure lookup resolves to the most recently
started row — the matching `started` row with the greatest primary key —
for the given (saga, step name); `log_step_completed` with no such row
fails with the "No started step found" error (and returns no store, hence
writes nothing), while `log_step_failed` with no such row appends a
synthesized `failed` row (step_number 0) directly. -/
theorem c8_step_resolution :
    (∀ (logs : List SagaStepLog) (sid name : String) (l : SagaStepLog),
      find_started logs sid name = some l →
      l ∈ logs ∧ startedMatch sid name l = true ∧
      ∀ m ∈ logs, startedMatch sid name m = true → m.id ≤ l.id) ∧
    (∀ (st : Store) (now : Nat) (sid name : String)
        (out : Option (List (String × Value))),
      find_started st.step_logs sid name = none →
      log_step_completed st now sid name out =
        Except.error ("No started step found: " ++ sid ++ "/" ++ name)) ∧
    (∀ (st : Store) (now : Nat) (sid name em : String),
      find_started st.step_logs sid name = none →
      log_step_failed st now sid name em =
        ({ st with
            step_logs := st.step_logs ++ [synthesized_failed_row st now sid name em]
            next_log_id := st.next_log_id + 1 },
         synthesized_failed_row st now sid name em)) := by
  refine ⟨?_, ?_, ?_⟩
  · intro logs sid name l h
    obtain ⟨hmem, hmatch⟩ := find_started_mem_match logs sid name l h
    exact ⟨hmem, hmatch, find_started_max logs sid name l h⟩
  · intro st now sid name out h
    unfold log_step_completed
    rw [h]
  · intro st now sid name em h
    unfold log_step_failed
    rw [h]
    rfl

def rowC8a : SagaStepLog :=
  { id := 3
    saga_id := "saga-c8"
    step_number := 4
    step_name := "clustering"
    status := "started"
    event_type := some EventType.clustering_requested
    correlation_id := some "corr-c8"
    input_data := none
    output_data := none
    error_message := none
    started_at := 10
    completed_at := none
    duration_ms := none }

def rowC8b : SagaStepLog :=
  { id := 7
    saga_id := "saga-c8"
    step_number := 4
    step_name := "clustering"
    status := "started"
    event_type := some EventType.clustering_requested
    correlation_id := some "corr-c8"
    input_data := none
    output_data := none
    error_message := none
    started_at := 20
    completed_at := none
    duration_ms := none }

def storeC8 : Store :=
  { sagas := [], step_logs := [rowC8a, rowC8b], compensations := [], next_log_id := 8 }

/-- Claim C8, witness: on a store holding two `started` rows for
(saga-c8, clustering) the lookup resolves to the one with the greater id;
on the same store, completing the never-started step `dxf_export` errors
while failing it synthesizes a `failed` row. -/
theorem c8_witness :
    find_started storeC8.step_logs "saga-c8" "clustering" = some rowC8b ∧
    (rowC8b ∈ storeC8.step_logs ∧
      startedMatch "saga-c8" "clustering" rowC8b = true ∧
      ∀ m ∈ storeC8.step_logs,
        startedMatch "saga-c8" "clustering" m = true → m.id ≤ rowC8b.id) ∧
    log_step_completed storeC8 30 "saga-c8" "dxf_export" none =
      Except.error ("No started step found: " ++ "saga-c8" ++ "/" ++ "dxf_export") ∧
    log_step_failed storeC8 30 "saga-c8" "dxf_export" "oops" =
      ({ storeC8 with
          step_logs := storeC8.step_logs ++
            [synthesized_failed_row storeC8 30 "saga-c8" "dxf_export" "oops"]
          next_log_id := storeC8.next_log_id + 1 },
       synthesized_failed_row storeC8 30 "saga-c8" "dxf_export" "oops") :=
  ⟨rfl,
   c8_step_resolution.1 storeC8.step_logs "saga-c8" "clustering" rowC8b rfl,
   c8_step_resolution.2.1 storeC8 30 "saga-c8" "dxf_export" none rfl,
   c8_step_resolution.2.2 storeC8 30 "saga-c8" "dxf_export" "oops" rfl⟩

/-! Fixtures and theorems for claim C5 (correlation-identifier propagation). -/

/-- Claim C5 (amended): every command event a handler publishes carries the
triggering event's correlation identifier unchanged; but each resume
operation constructs its human-input event without a correlation
identifier, so that event receives the freshly generated one (`fresh`) —
a new causal chain — rather than the chain identifier of the events that
drove the saga to its `AWAITING_*` state. -/
theorem c5_correlation :
    (∀ (st : Store) (now : Nat) (fresh : String) (e : SagaEvent)
        (te : String × SagaEvent),
      te ∈ (handle_event st now fresh e).published →
      te.2.correlation_id = e.correlation_id) ∧
    (∀ (st : Store) (fresh : String) (now : Nat) (id method : String)
        (te : String × SagaEvent),
      te ∈ (resume_with_enhancement st fresh now id method).2.2 →
      te.2.correlation_id = fresh) ∧
    (∀ (st : Store) (fresh : String) (now : Nat) (id : String) (cd : Value)
        (te : String × SagaEvent),
      te ∈ (resume_with_clustering st fresh now id cd).2.2 →
      te.2.correlation_id = fresh) ∧
    (∀ (st : Store) (fresh : String) (now : Nat) (id et : String)
        (te : String × SagaEvent),
      te ∈ (resume_with_export st fresh now id et).2.2 →
      te.2.correlation_id = fresh) := by
  refine ⟨?_, ?_, ?_, ?_⟩
  · intro st now fresh e te hte
    obtain ⟨sid, ety, corr, ts, pl, md, rc, em⟩ := e
    cases ety <;>
      simp only [handle_event, handle_workflow_started, handle_image_processed,
        handle_enhanced_colors_generated, handle_enhancement_selected,
        handle_clustering_submitted, handle_clustering_completed,
        handle_export_requested, handle_dxf_exported, handle_workflow_failed] at hte <;>
      (repeat' split at hte) <;>
      simp only [HResult.published] at hte <;>
      (first
        | exact absurd hte (List.not_mem_nil te)
        | (obtain rfl := List.mem_singleton.mp hte; rfl))
  · intro st fresh now id method te hte
    unfold resume_with_enhancement at hte
    repeat' split at hte
    all_goals
      first
        | exact absurd hte (List.not_mem_nil te)
        | (obtain rfl := List.mem_singleton.mp hte; rfl)
  · intro st fresh now id cd te hte
    unfold resume_with_clustering at hte
    repeat' split at hte
    all_goals
      first
        | exact absurd hte (List.not_mem_nil te)
        | (obtain rfl := List.mem_singleton.mp hte; rfl)
  · intro st fresh now id et te hte
    unfold resume_with_export at hte
    repeat' split at hte
    all_goals
      first
        | exact absurd hte (List.not_mem_nil te)
        | (obtain rfl := List.mem_singleton.mp hte; rfl)

def sagaC5 : Saga :=
  { id := "saga-c5"
    workflow_type := "image_to_cad"
    status := SagaStatus.awaiting_enhancement_selection
    current_step := some "enhancement_selection"
    session_id := "sess-c5"
    created_at := 0
    updated_at := 40
    completed_at := none
    result_data := some [("enhanced_colors", Value.dict [])]
    error_message := none
    total_duration_ms := none }

def stepC5 : SagaStepLog :=
  { id := 1
    saga_id := "saga-c5"
    step_number := 1
    step_name := "image_processing"
    status := "completed"
    event_type := some EventType.image_processing_requested
    correlation_id := some "corr-A"
    input_data := none
    output_data := none
    error_message := none
    started_at := 0
    completed_at := some 5
    duration_ms := some 5 }

def storeC5 : Store :=
  { sagas := [sagaC5], step_logs := [stepC5], compensations := [], next_log_id := 2 }

/-- Claim C5, counterexample: the saga's causal chain carries correlation
identifier "corr-A" (recorded in its step log), yet the human-input event
published by `resume_with_enhancement` for that saga carries the freshly
generated "corr-B" — the resume operation does not propagate the chain's
correlation identifier. -/
theorem c5_counterexample :
    stepC5.correlation_id = some "corr-A" ∧
    stepC5 ∈ storeC5.step_logs ∧
    (resume_with_enhancement storeC5 "corr-B" 50 "saga-c5" "vibrant").2.1 = true ∧
    ((resume_with_enhancement storeC5 "corr-B" 50 "saga-c5" "vibrant").2.2.map
      (fun te => te.2.correlation_id)) = ["corr-B"] ∧
    "corr-B" ≠ "corr-A" :=
  ⟨rfl, List.mem_cons_self _ _, rfl, rfl, by decide⟩

def sagaC5w : Saga :=
  { id := "saga-c5w"
    workflow_type := "image_to_cad"
    status := SagaStatus.started
    current_step := none
    session_id := "sess-c5w"
    created_at := 0
    updated_at := 0
    completed_at := none
    result_data := none
    error_message := none
    total_duration_ms := none }

def storeC5w : Store :=
  { sagas := [sagaC5w], step_logs := [], compensations := [], next_log_id := 1 }

def evC5 : SagaEvent :=
  { saga_id := "saga-c5w"
    event_type := EventType.workflow_started
    correlation_id := "corr-A"
    timestamp := 3
    payload := [("session_id", Value.str "sess-c5w"),
                ("workflow_type", Value.str "image_to_cad"),
                ("image_filename", Value.str "garden.jpg")]
    metadata := []
    retry_count := 0
    error_message := none }

/-- Claim C5, witness: the amended theorem applied to (a) the command the
workflow-started handler publishes — it carries the triggering event's
"corr-A", not the fresh "fresh-X" — and (b) the human-input event the
enhancement resume publishes — it carries the fresh "fresh-Y". -/
theorem c5_witness :
    (("saga-commands",
       ImageProcessingRequested "fresh-X" 3 "saga-c5w" (Value.str "sess-c5w")
         (Value.str "garden.jpg") (some "corr-A")) ∈
      (handle_event storeC5w 3 "fresh-X" evC5).published ∧
     ("saga-commands",
       ImageProcessingRequested "fresh-X" 3 "saga-c5w" (Value.str "sess-c5w")
         (Value.str "garden.jpg") (some "corr-A")).2.correlation_id =
       evC5.correlation_id) ∧
    (("saga-events",
       EnhancementSelected "fresh-Y" 50 "saga-c5" (Value.str "sess-c5")
         (Value.str "vibrant") (Value.dict []) none) ∈
      (resume_with_enhancement storeC5 "fresh-Y" 50 "saga-c5" "vibrant").2.2 ∧
     ("saga-events",
       EnhancementSelected "fresh-Y" 50 "saga-c5" (Value.str "sess-c5")
         (Value.str "vibrant") (Value.dict []) none).2.correlation_id = "fresh-Y") :=
  ⟨⟨List.mem_cons_self _ _,
    c5_correlation.1 storeC5w 3 "fresh-X" evC5 _ (List.mem_cons_self _ _)⟩,
   ⟨List.mem_cons_self _ _,
    c5_correlation.2.1 storeC5 "fresh-Y" 50 "saga-c5" "vibrant" _
      (List.mem_cons_self _ _)⟩⟩

/-! Fixtures and theorems for claim C4 (duplicate image-processed delivery). -/

theorem startedMatch_not_started (sid name : String) (l : SagaStepLog)
    (h : l.status ≠ "started") : startedMatch sid name l = false := by
  unfold startedMatch
  rw [beq_eq_false_iff_ne.mpr h, Bool.and_false]

theorem startedMatch_wrong_name (sid name : String) (l : SagaStepLog)
    (h : l.step_name ≠ name) : startedMatch sid name l = false := by
  unfold startedMatch
  rw [beq_eq_false_iff_ne.mpr h, Bool.and_false, Bool.false_and]

/-- Claim C4: handling the same `image_processed` event twice does not
advance the saga's state machine a second time.  The first successful
handling consumes the saga's unique `started` row for `image_processing`
(invariant: at most one such row, expressed as the id-uniqueness
hypothesis) and moves the status to `GENERATING_ENHANCED_COLORS`; the
duplicate delivery is rejected by the started-row lookup
("No started step found") before any write, leaving the store — and hence
the status — exactly as after the first delivery. -/
theorem c4_duplicate_image_processed (st : Store) (now now2 : Nat)
    (fresh fresh2 : String) (e : SagaEvent) (st1 : Store)
    (pubs : List (String × SagaEvent))
    (hty : e.event_type = EventType.image_processed)
    (huniq : ∀ l ∈ st.step_logs, ∀ m ∈ st.step_logs,
        startedMatch e.saga_id "image_processing" l = true →
        startedMatch e.saga_id "image_processing" m = true → l.id = m.id)
    (h : handle_event st now fresh e = HResult.ok st1 pubs) :
    handle_event st1 now2 fresh2 e =
      HResult.err st1
        ("No started step found: " ++ e.saga_id ++ "/" ++ "image_processing") [] ∧
    (get_saga st1 e.saga_id).map Saga.status =
      some SagaStatus.generating_enhanced_colors := by
  simp only [handle_event, hty] at h ⊢
  unfold handle_image_processed at h ⊢
  cases h1 : lookupVal e.payload "session_id" with
  | none => simp only [h1] at h; cases h
  | some sid =>
  simp only [h1] at h ⊢
  cases h2 : lookupVal e.payload "bed_data" with
  | none => simp only [h2] at h; cases h
  | some bd =>
  simp only [h2] at h ⊢
  cases h3 : lookupVal e.payload "bed_count" with
  | none => simp only [h3] at h; cases h
  | some bc =>
  simp only [h3] at h ⊢
  split at h
  · cases h
  rename_i stA rowA hlog
  split at h
  · cases h
  rename_i stB sagaB hupd
  split at h
  · cases h
  rename_i stD sagaD hset
  injection h with hst hpubs
  subst hst
  obtain ⟨target, hfs, hrowA, hlogsA, hsagasA, hnidA⟩ :=
    log_step_completed_ok_inv _ _ _ _ _ _ _ hlog
  obtain ⟨sagaA0, hgA, hidB, hstatB, hcaB, hstB, hlogsB, hnidB, hgetB⟩ :=
    update_saga_status_ok_inv _ _ _ _ _ _ _ _ hupd
  obtain ⟨sagaC0, hgC, hD1, hD2, hD3, hlogsD, hnidD, hgetD⟩ :=
    set_saga_result_ok_inv _ _ _ _ _ hset
  obtain ⟨htmem, htmatch⟩ :=
    find_started_mem_match st.step_logs e.saga_id "image_processing" target hfs
  have hlogsEq : stD.step_logs =
      (st.step_logs.map fun l => if l.id = target.id then rowA else l) ++
        [{ id := stB.next_log_id
           saga_id := e.saga_id
           step_number := 2
           step_name := "enhanced_colors"
           status := "started"
           event_type := some EventType.enhanced_colors_requested
           correlation_id := some e.correlation_id
           input_data := some [("bed_count", bc)]
           output_data := none
           error_message := none
           started_at := now
           completed_at := none
           duration_ms := none }] := by
    calc stD.step_logs
        = (log_step_started stB now e.saga_id 2 "enhanced_colors"
            EventType.enhanced_colors_requested e.correlation_id
            (some [("bed_count", bc)])).1.step_logs := hlogsD
      _ = stB.step_logs ++ [_] := rfl
      _ = _ := by rw [hlogsB, hlogsA]
  have hnone : find_started stD.step_logs e.saga_id "image_processing" = none := by
    apply find_started_none_of
    intro m hm
    rw [hlogsEq] at hm
    rcases List.mem_append.mp hm with hm1 | hm2
    · obtain ⟨orig, horig, rfl⟩ := List.mem_map.mp hm1
      by_cases hid : orig.id = target.id
      · rw [if_pos hid]
        refine startedMatch_not_started _ _ _ ?_
        rw [hrowA]
        exact (by decide : ("completed" : String) ≠ "started")
      · rw [if_neg hid]
        cases hsm : startedMatch e.saga_id "image_processing" orig with
        | false => rfl
        | true => exact absurd (huniq orig horig target htmem hsm htmatch) hid
    · obtain rfl := List.mem_singleton.mp hm2
      exact startedMatch_wrong_name _ _ _
        (by decide : ("enhanced_colors" : String) ≠ "image_processing")
  have hlc : log_step_completed stD now2 e.saga_id "image_processing"
      (some [("bed_count", bc),
             ("processing_time_ms",
              (lookupVal e.payload "processing_time_ms").getD (Value.int 0))]) =
      Except.error ("No started step found: " ++ e.saga_id ++ "/" ++
        "image_processing") := by
    unfold log_step_completed
    rw [hnone]
  refine ⟨?_, ?_⟩
  · simp only [hlc]
  · have hC : get_saga (log_step_started stB now e.saga_id 2 "enhanced_colors"
        EventType.enhanced_colors_requested e.correlation_id
        (some [("bed_count", bc)])).1 e.saga_id = some sagaB :=
      (get_saga_congr (log_step_started stB now e.saga_id 2 "enhanced_colors"
        EventType.enhanced_colors_requested e.correlation_id
        (some [("bed_count", bc)])).1 stB e.saga_id rfl).trans hgetB
    have hCB : sagaC0 = sagaB := Option.some.inj (hgC.symm.trans hC)
    rw [hgetD]
    show some sagaD.status = some SagaStatus.generating_enhanced_colors
    rw [hD2, hCB, hstatB]

def sagaC4 : Saga :=
  { id := "saga-c4"
    workflow_type := "image_to_cad"
    status := SagaStatus.image_processing
    current_step := some "image_processing"
    session_id := "sess-c4"
    created_at := 0
    updated_at := 1
    completed_at := none
    result_data := none
    error_message := none
    total_duration_ms := none }

def stepC4 : SagaStepLog :=
  { id := 1
    saga_id := "saga-c4"
    step_number := 1
    step_name := "image_processing"
    status := "started"
    event_type := some EventType.image_processing_requested
    correlation_id := some "corr-c4"
    input_data := some [("session_id", Value.str "sess-c4")]
    output_data := none
    error_message := none
    started_at := 1
    completed_at := none
    duration_ms := none }

def storeC4 : Store :=
  { sagas := [sagaC4], step_logs := [stepC4], compensations := [], next_log_id := 2 }

def evC4 : SagaEvent :=
  { saga_id := "saga-c4"
    event_type := EventType.image_processed
    correlation_id := "corr-c4"
    timestamp := 10
    payload := [("session_id", Value.str "sess-c4"),
                ("bed_count", Value.int 5),
                ("bed_data", Value.list [])]
    metadata := []
    retry_count := 0
    error_message := none }

/-- Claim C4, witness: the duplicate-delivery theorem applied to a concrete
saga mid-image-processing and a concrete `image_processed` event delivered
twice. -/
theorem c4_witness :
    evC4.event_type = EventType.image_processed ∧
    (∀ l ∈ storeC4.step_logs, ∀ m ∈ storeC4.step_logs,
        startedMatch evC4.saga_id "image_processing" l = true →
        startedMatch evC4.saga_id "image_processing" m = true → l.id = m.id) ∧
    (handle_event (handle_event storeC4 10 "f1" evC4).store 11 "f2" evC4 =
       HResult.err (handle_event storeC4 10 "f1" evC4).store
         ("No started step found: " ++ evC4.saga_id ++ "/" ++ "image_processing") [] ∧
     (get_saga (handle_event storeC4 10 "f1" evC4).store evC4.saga_id).map
         Saga.status =
       some SagaStatus.generating_enhanced_colors) :=
  ⟨rfl, by decide,
   c4_duplicate_image_processed storeC4 10 11 "f1" "f2" evC4
     (handle_event storeC4 10 "f1" evC4).store
     (handle_event storeC4 10 "f1" evC4).published rfl (by decide) rfl⟩
